import Mathlib

/-!
Verification development for the StarField3D astrometric pipeline.

The JavaScript sources are shallowly embedded over exact rationals (ℚ):
JS `number` arithmetic is modelled exactly, with the non-finite values
(NaN, ±Infinity) that can arise from division by zero represented
explicitly by the `JSNum` type where they matter.  Trigonometric
functions and the float value of `Math.PI` are abstracted as parameters
(`S`, `C`, `pi`), with the algebraic facts a proof needs (oddness,
evenness, the Pythagorean identity at a point) taken as hypotheses.
-/

namespace StarField3D

/-- A JavaScript number that may be non-finite: the result of a division
by zero is `nan` (0/0), `pinf` (positive/0) or `ninf` (negative/0). -/
inductive JSNum where
  | fin (q : ℚ)
  | nan
  | pinf
  | ninf
  deriving DecidableEq, Repr

/-- JS division `n / d` on exact rationals: finite when `d ≠ 0`,
`NaN` on `0/0`, `±Infinity` on `(±x)/0`. -/
def jsDiv (n d : ℚ) : JSNum :=
  if d ≠ 0 then .fin (n / d)
  else if n = 0 then .nan
  else if 0 < n then .pinf
  else .ninf

/-- JS `Math.max(0, Math.min(1, x))`: clamps a finite value into `[0,1]`,
maps `+Infinity` to `1`, `-Infinity` to `0`, and propagates `NaN`
(in JS, `Math.min`/`Math.max` return `NaN` when an argument is `NaN`). -/
def jsClamp01 : JSNum → JSNum
  | .fin q => .fin (max 0 (min 1 q))
  | .nan => .nan
  | .pinf => .fin 1
  | .ninf => .fin 0

/-- Predicate: `x` is a finite value lying in the unit interval `[0,1]`. -/
def JSNum.inUnit : JSNum → Prop
  | .fin q => 0 ≤ q ∧ q ≤ 1
  | _ => False

instance : DecidablePred JSNum.inUnit := by
  intro x
  cases x <;> simp [JSNum.inUnit] <;> infer_instance

/-- A pixel coordinate, `{x, y}` in image pixel space. -/
structure Pixel where
  x : ℚ
  y : ℚ
  deriving DecidableEq, Repr

/-! ## CalibrationOverride — `web/js/pixel-calibration.js`

The module-level mutable object `pixelCalibration` is modelled as an
explicit store `String → Option Pixel` passed to the accessors. -/

/-- The initial `pixelCalibration` object literal
(`pixel-calibration.js` lines 9–18). -/
def pixelCalibrationInit : String → Option Pixel := fun label =>
  if label = "Alpheratz" then some ⟨1977, 1287⟩
  else if label = "A" then some ⟨2064, 894⟩
  else if label = "B" then some ⟨2544, 903⟩
  else if label = "C" then some ⟨2832, 783⟩
  else if label = "D" then some ⟨732, 519⟩
  else if label = "E" then some ⟨2436, 2124⟩
  else if label = "F" then some ⟨2625, 2091⟩
  else if label = "G" then some ⟨3456, 579⟩
  else none

/-- Source `getCalibratedPixel(starLabel)`: `pixelCalibration[starLabel] || null`.
The stored values are objects, hence always truthy, so the lookup is
exactly the store's entry (or `null` = `none` when absent). -/
def getCalibratedPixel (cal : String → Option Pixel) (starLabel : String) :
    Option Pixel :=
  cal starLabel

/-- Source `setCalibratedPixel(starLabel, x, y)`:
`pixelCalibration[starLabel] = { x, y }` — returns the updated store. -/
def setCalibratedPixel (cal : String → Option Pixel) (starLabel : String)
    (x y : ℚ) : String → Option Pixel :=
  fun l => if l = starLabel then some ⟨x, y⟩ else cal l

/-! ## ParallaxDistanceResolver — `distance-lookup.js` -/

/-- The distance record produced by the resolver:
`{ distanceLy, distancePc, parallax }` (parallax in arcseconds). -/
structure DistanceRecord where
  distanceLy : ℚ
  distancePc : ℚ
  parallax : ℚ
  deriving DecidableEq, Repr

/-- The arithmetic core of `lookupDistanceSIMBAD` (lines 24–39), given the
parallax value (mas) parsed out of the SIMBAD response.  Network I/O and
the regex match are outside the model; a missing or non-positive parallax
yields `none` exactly as the source returns `null`. -/
def simbadDistanceOfParallax (parallaxMas : ℚ) : Option DistanceRecord :=
  let parallaxArcsec := parallaxMas / 1000
  if 0 < parallaxArcsec then
    let distancePc := 1 / parallaxArcsec
    let distanceLy := distancePc * 3.26156
    some ⟨distanceLy, distancePc, parallaxArcsec⟩
  else
    none

/-- A local catalog entry: optional parallax (mas) and optional direct
distance (pc).  A JS field that is absent or `null` is `none`. -/
structure CatalogEntry where
  parallax : Option ℚ
  distancePc : Option ℚ
  deriving DecidableEq, Repr

/-- The `else if (entry.distancePc)` branch of `lookupDistanceCatalog`
(lines 70–76): taken only when the field is present and truthy (≠ 0). -/
def catalogDistancePcBranch (e : CatalogEntry) : Option DistanceRecord :=
  match e.distancePc with
  | some d => if d ≠ 0 then some ⟨d * 3.26156, d, 1 / d⟩ else none
  | none => none

/-- Source `lookupDistanceCatalog` (lines 52–79) applied to the catalog's entry
for the requested identifier (`catalog[hipNumber]`, `none` when absent).
`if (entry.parallax && entry.parallax > 0)` requires the field to be
present, truthy and positive, i.e. present with a positive value. -/
def lookupDistanceCatalog (entry : Option CatalogEntry) :
    Option DistanceRecord :=
  match entry with
  | none => none
  | some e =>
    match e.parallax with
    | some p =>
      if 0 < p then
        let parallaxArcsec := p / 1000
        let distancePc := 1 / parallaxArcsec
        some ⟨distancePc * 3.26156, distancePc, parallaxArcsec⟩
      else catalogDistancePcBranch e
    | none => catalogDistancePcBranch e

/-- Source `batchLookupSIMBAD` (lines 87–103): iterate the identifiers in order,
look each one up, and record only the successful results (`if (distance)`
— the record object is truthy exactly when the lookup returned one).
The remote lookup is abstracted as a function `lookup`; the rate-limit
delay does not affect the accumulated results. -/
def batchLookupSIMBAD (lookup : ℕ → Option DistanceRecord)
    (hipNumbers : List ℕ) : List (ℕ × DistanceRecord) :=
  hipNumbers.filterMap fun hip => (lookup hip).map fun d => (hip, d)

/-! ## Batch survival in `convertData` — `converter/data-converter.js` -/

/-- Source `stars.filter(s => s.distanceLy > 0)` (line 120): a star with no
`distanceLy` field (`undefined > 0` is false) or a non-positive one is
dropped.  Modelled on the stars' `distanceLy` fields. -/
def convertSurvivors (distances : List (Option ℚ)) : List (Option ℚ) :=
  distances.filter fun d =>
    match d with
    | some q => decide (0 < q)
    | none => false

/-- Source `if (starsWithDistances.length === 0) ... process.exit(1)`
(lines 124–127): the batch is fatal exactly when zero stars survive. -/
def convertFatal (distances : List (Option ℚ)) : Bool :=
  (convertSurvivors distances).isEmpty

/-! ## EquatorialProjector — `raDecToPixel` (coordinate conversion module)

The trigonometric functions `Math.sin`/`Math.cos` and the constant
`Math.PI` are abstracted as parameters `S C : ℚ → ℚ` and `pi : ℚ`; the
rest of the arithmetic is exact. -/

/-- The RA-difference normalization (lines 20–24):
`raDiff = ra - centerRA`, then two sequential conditional shifts
by ±360 into the `[-180, 180]` range. -/
def normRaDiff (ra centerRA : ℚ) : ℚ :=
  let raDiff := ra - centerRA
  let raDiff1 := if 180 < raDiff then raDiff - 360 else raDiff
  if raDiff1 < -180 then raDiff1 + 360 else raDiff1

/-- The gnomonic-projection denominator (lines 27–42):
`sin(centerDec)*sin(dec) + cos(centerDec)*(cos(dec)*cos(raRad))`. -/
def projDenominator (S C : ℚ → ℚ) (pi ra dec centerRA centerDec : ℚ) : ℚ :=
  let raRad := normRaDiff ra centerRA * pi / 180
  let decRad := dec * pi / 180
  let centerDecRad := centerDec * pi / 180
  let A := C decRad * C raRad
  S centerDecRad * S decRad + C centerDecRad * A

/-- The raw (pre-margin-check, pre-clamp) pixel coordinate
(lines 48–61): angular offsets over the denominator, radians to
arcseconds (× 206265), arcseconds to pixels via `scale`, with the
X offset added to `width/2` and the Y offset subtracted from
`height/2`. -/
def rawPixel (S C : ℚ → ℚ)
    (pi ra dec centerRA centerDec imageWidth imageHeight scale : ℚ) :
    ℚ × ℚ :=
  let raRad := normRaDiff ra centerRA * pi / 180
  let decRad := dec * pi / 180
  let centerDecRad := centerDec * pi / 180
  let A := C decRad * C raRad
  let denominator := S centerDecRad * S decRad + C centerDecRad * A
  let xRad := -(C decRad * S raRad) / denominator
  let yRad := (C centerDecRad * S decRad - S centerDecRad * A) / denominator
  let xArcsec := xRad * 206265
  let yArcsec := yRad * 206265
  (imageWidth / 2 + xArcsec / scale, imageHeight / 2 - yArcsec / scale)

/-- Source `raDecToPixel` (lines 17–75): `null` when the denominator is tiny
(`|denominator| < 1e-10`) or when the raw pixel falls outside the
20%-margin box; otherwise the raw pixel clamped into
`[0, width] × [0, height]`.  Faithful to the source for `scale ≠ 0`
(a zero scale would produce non-finite JS values). -/
def raDecToPixel (S C : ℚ → ℚ)
    (pi ra dec centerRA centerDec imageWidth imageHeight scale : ℚ) :
    Option (ℚ × ℚ) :=
  let denominator := projDenominator S C pi ra dec centerRA centerDec
  if |denominator| < 1 / 10000000000 then
    none
  else
    let p := rawPixel S C pi ra dec centerRA centerDec
      imageWidth imageHeight scale
    let margin := max imageWidth imageHeight * (2 / 10)
    if p.1 < -margin ∨ imageWidth + margin < p.1 ∨
        p.2 < -margin ∨ imageHeight + margin < p.2 then
      none
    else
      some (max 0 (min imageWidth p.1), max 0 (min imageHeight p.2))

/-! ## VolumeDistanceScaler -/

/-- Source `Math.min(...)` over a non-empty argument list (the sources only
spread non-empty arrays into `Math.min`: `convertData` exits first on an
empty batch and `generateVisualizationData` is guarded by the
caller's zero-survivor check). -/
def listMin : List ℚ → ℚ
  | [] => 0
  | x :: xs => xs.foldl min x

/-- Source `Math.max(...)` over a non-empty argument list. -/
def listMax : List ℚ → ℚ
  | [] => 0
  | x :: xs => xs.foldl max x

/-- Source `Math.floor(minDistance / 10) * 10` — the front offset used by both
scaler implementations (`Rat.floor` models `Math.floor`, rounding toward
negative infinity). -/
def frontOffsetOf (minDistance : ℚ) : ℚ :=
  ((minDistance / 10).floor : ℚ) * 10

/-- The scaling parameters produced by `calculateDistanceScaling`
(`data-converter.js` lines 29–58).  `scale` is a JS division, possibly
non-finite; `distanceRange` is absent (`undefined`) in the empty-batch
return object, hence an `Option`. -/
structure ScalingResult where
  frontOffset : ℚ
  maxDistance : ℚ
  scale : JSNum
  distanceRange : Option ℚ
  deriving DecidableEq, Repr

/-- The distance filter of `calculateDistanceScaling`
(`data-converter.js` lines 30–32):
`stars.map(s => s.distanceLy).filter(d => d !== null && d > 0)` —
a missing (`undefined`/`null`) or non-positive `distanceLy` is dropped. -/
def resolvedDistances (starDistances : List (Option ℚ)) : List ℚ :=
  (starDistances.filterMap id).filter fun d => 0 < d

/-- Source `calculateDistanceScaling(stars, volumeDepth)`
(`data-converter.js` lines 29–58): filter the present, positive
`distanceLy` values; on an empty result return
`{frontOffset: 0, maxDistance: volumeDepth, scale: 1}` (no
`distanceRange` field); otherwise `frontOffset = floor(min/10)*10`,
`distanceRange = max - frontOffset`, `scale = volumeDepth/distanceRange`. -/
def calculateDistanceScaling (starDistances : List (Option ℚ))
    (volumeDepth : ℚ) : ScalingResult :=
  match resolvedDistances starDistances with
  | [] => ⟨0, volumeDepth, .fin 1, none⟩
  | ds =>
    let minDistance := listMin ds
    let maxDistance := listMax ds
    let frontOffset := frontOffsetOf minDistance
    let distanceRange := maxDistance - frontOffset
    ⟨frontOffset, maxDistance, jsDiv volumeDepth distanceRange,
      some distanceRange⟩

/-- The per-star depth normalization of `generateVisualizationData`
(`data-entry.js` lines 1854–1874) applied to one star's `distanceLy`
within a batch: `(distanceLy - frontOffset) / distanceRange` clamped by
`Math.max(0, Math.min(1, ·))`, where `frontOffset` and `distanceRange`
come from the whole batch (lines 1856–1860). -/
def scaledDistanceOf (batch : List ℚ) (distanceLy : ℚ) : JSNum :=
  let minDistance := listMin batch
  let maxDistance := listMax batch
  let frontOffset := frontOffsetOf minDistance
  let distanceRange := maxDistance - frontOffset
  jsClamp01 (jsDiv (distanceLy - frontOffset) distanceRange)

/-- The scaled distances `generateVisualizationData` assigns across a
batch (lines 1871–1874). -/
def scaledDistances (batch : List ℚ) : List JSNum :=
  batch.map (scaledDistanceOf batch)

/-! ## Pixel-coordinate selection in `handleFormSubmit`
(`data-entry.js` lines 1404–1462)

Per star, the priority order implemented (and documented) by the source
is: 1. CSV-supplied pixel coordinates, 2. the manual calibration
override, 3. projection from RA/Dec. -/

/-- A star entry as seen by the pixel-selection loop: its label and the
optional CSV-supplied pixel coordinates. -/
structure EntryStar where
  label : String
  pixelX : Option ℚ
  pixelY : Option ℚ
  deriving DecidableEq, Repr

/-- The per-star pixel-coordinate selection of `handleFormSubmit`
(lines 1404–1462).  `cal` is the calibration store read by
`getCalibratedPixel`; `coords` is `hipCoords.get(star.hip)` (`none` when
the lookup misses); `scaleOpt` is the scale (`none` for the source's
`scale === null` check); `centerRA`/`centerDec` are the frame center —
the source tests `!centerRA || !centerDec`, so an absent (`none`) or
zero value skips the star.  The RA<24 heuristic (lines 1431–1435)
converts hours to degrees before projecting. -/
def selectStarPixel (S C : ℚ → ℚ) (pi : ℚ)
    (cal : String → Option Pixel) (coords : Option (ℚ × ℚ))
    (scaleOpt : Option ℚ) (centerRA centerDec : Option ℚ)
    (imageWidth imageHeight : ℚ) (star : EntryStar) : Option Pixel :=
  match star.pixelX, star.pixelY with
  | some px, some py => some ⟨px, py⟩
  | _, _ =>
    match getCalibratedPixel cal star.label with
    | some p => some p
    | none =>
      match coords with
      | none => none
      | some (ra, dec) =>
        let raDeg := if ra < 24 then ra * 15 else ra
        match scaleOpt with
        | none => none
        | some scale =>
          match centerRA, centerDec with
          | some cra, some cdec =>
            if cra = 0 ∨ cdec = 0 then none
            else
              (raDecToPixel S C pi raDeg dec cra cdec
                imageWidth imageHeight scale).map fun p => ⟨p.1, p.2⟩
          | _, _ => none

/-! ## Helper lemmas -/

/-- Folding `min` never exceeds the initial accumulator. -/
lemma foldl_min_le_init (l : List ℚ) (a : ℚ) : l.foldl min a ≤ a := by
  induction l generalizing a with
  | nil => exact le_refl a
  | cons x xs ih =>
    exact le_trans (ih (min a x)) (min_le_left a x)

/-- Folding `min` is a lower bound of every list member. -/
lemma foldl_min_le_mem (l : List ℚ) (x : ℚ) :
    x ∈ l → ∀ a, l.foldl min a ≤ x := by
  induction l with
  | nil => intro hx; cases hx
  | cons y ys ih =>
    intro hx a
    rcases List.mem_cons.mp hx with h | h
    · subst h
      exact le_trans (foldl_min_le_init ys (min a x)) (min_le_right a x)
    · exact ih h (min a y)

/-- Folding `max` dominates the initial accumulator. -/
lemma init_le_foldl_max (l : List ℚ) (a : ℚ) : a ≤ l.foldl max a := by
  induction l generalizing a with
  | nil => exact le_refl a
  | cons x xs ih =>
    exact le_trans (le_max_left a x) (ih (max a x))

/-- Folding `max` is an upper bound of every list member. -/
lemma mem_le_foldl_max (l : List ℚ) (x : ℚ) :
    x ∈ l → ∀ a, x ≤ l.foldl max a := by
  induction l with
  | nil => intro hx; cases hx
  | cons y ys ih =>
    intro hx a
    rcases List.mem_cons.mp hx with h | h
    · subst h
      exact le_trans (le_max_right a x) (init_le_foldl_max ys (max a x))
    · exact ih h (max a y)

/-- The batch minimum is a lower bound. -/
lemma listMin_le {l : List ℚ} {x : ℚ} (hx : x ∈ l) : listMin l ≤ x := by
  cases l with
  | nil => cases hx
  | cons y ys =>
    rcases List.mem_cons.mp hx with h | h
    · subst h
      exact foldl_min_le_init ys x
    · exact foldl_min_le_mem ys x h y

/-- The batch maximum is an upper bound. -/
lemma le_listMax {l : List ℚ} {x : ℚ} (hx : x ∈ l) : x ≤ listMax l := by
  cases l with
  | nil => cases hx
  | cons y ys =>
    rcases List.mem_cons.mp hx with h | h
    · subst h
      exact init_le_foldl_max ys x
    · exact mem_le_foldl_max ys x h y

/-- Rounding down to a multiple of 10 never exceeds the input. -/
lemma frontOffsetOf_le (m : ℚ) : frontOffsetOf m ≤ m := by
  have h : ((m / 10).floor : ℚ) ≤ m / 10 := Rat.le_floor.mp le_rfl
  calc frontOffsetOf m = ((m / 10).floor : ℚ) * 10 := rfl
    _ ≤ m / 10 * 10 := by exact mul_le_mul_of_nonneg_right h (by norm_num)
    _ = m := by field_simp

/-- Clamping into `[0, w]` is symmetric about `w/2`: clamping `w - x`
gives `w` minus the clamp of `x`. -/
lemma clamp_reflect (w x : ℚ) (hw : 0 ≤ w) :
    max 0 (min w (w - x)) = w - max 0 (min w x) := by
  simp only [min_def, max_def]
  split_ifs <;> linarith

/-! ## Claim theorems -/

/-- C10: after `setCalibratedPixel(label, x, y)`, `getCalibratedPixel(label)`
returns exactly `{x, y}`; every other label's entry is unchanged; and
`getCalibratedPixel` of a label never present in the initial mapping
returns `null` (an explicit `none`, not an error). -/
theorem calibration_set_get (cal : String → Option Pixel) (label : String)
    (x y : ℚ) :
    getCalibratedPixel (setCalibratedPixel cal label x y) label =
      some ⟨x, y⟩ ∧
    (∀ l, l ≠ label →
      getCalibratedPixel (setCalibratedPixel cal label x y) l =
        getCalibratedPixel cal l) ∧
    (∀ l, l ∉ (["Alpheratz", "A", "B", "C", "D", "E", "F", "G"] :
        List String) →
      getCalibratedPixel pixelCalibrationInit l = none) := by
  refine ⟨?_, ?_, ?_⟩
  · simp [getCalibratedPixel, setCalibratedPixel]
  · intro l hl
    simp [getCalibratedPixel, setCalibratedPixel, hl]
  · intro l hl
    simp only [List.mem_cons, List.not_mem_nil, or_false, not_or] at hl
    obtain ⟨h1, h2, h3, h4, h5, h6, h7, h8⟩ := hl
    simp [getCalibratedPixel, pixelCalibrationInit,
      h1, h2, h3, h4, h5, h6, h7, h8]

/-- Witness for C10 at the initial store, label `"Z"`, coordinate (1, 2). -/
theorem calibration_set_get_witness :
    getCalibratedPixel (setCalibratedPixel pixelCalibrationInit "Z" 1 2)
      "Z" = some ⟨1, 2⟩ ∧
    getCalibratedPixel (setCalibratedPixel pixelCalibrationInit "Z" 1 2)
      "A" = getCalibratedPixel pixelCalibrationInit "A" ∧
    getCalibratedPixel pixelCalibrationInit "Q" = none := by
  have h := calibration_set_get pixelCalibrationInit "Z" 1 2
  exact ⟨h.1, h.2.1 "A" (by decide), h.2.2 "Q" (by decide)⟩

/-- C1 counterexample: a star labelled `"A"` carries CSV pixel
coordinates (5, 7) while the calibration override for `"A"` is
(2064, 894); the pixel selected for placement is the CSV coordinate,
not the override's — the override does not preempt an externally
supplied pixel coordinate. -/
theorem calibration_precedence_counterexample :
    selectStarPixel (fun _ => 0) (fun _ => 1) 3 pixelCalibrationInit
      none none none none 100 100 ⟨"A", some 5, some 7⟩ = some ⟨5, 7⟩ ∧
    getCalibratedPixel pixelCalibrationInit "A" = some ⟨2064, 894⟩ ∧
    (⟨5, 7⟩ : Pixel) ≠ ⟨2064, 894⟩ := by
  exact ⟨rfl, rfl, by decide⟩

/-- C1 (amended): for every object whose CSV pixel pair is not fully
supplied, an entry in the calibration-override mapping for its label
determines the placement pixel, preempting the equatorial projector;
a fully supplied CSV pixel pair, however, preempts the override. -/
theorem calibration_preempts_projection (S C : ℚ → ℚ) (pi : ℚ)
    (cal : String → Option Pixel) (coords : Option (ℚ × ℚ))
    (scaleOpt : Option ℚ) (centerRA centerDec : Option ℚ)
    (imageWidth imageHeight : ℚ) (star : EntryStar) (p : Pixel)
    (hcsv : star.pixelX = none ∨ star.pixelY = none)
    (hcal : getCalibratedPixel cal star.label = some p) :
    selectStarPixel S C pi cal coords scaleOpt centerRA centerDec
      imageWidth imageHeight star = some p := by
  obtain ⟨label, px, py⟩ := star
  simp only [EntryStar.pixelX, EntryStar.pixelY] at hcsv
  simp only [EntryStar.label] at hcal
  rcases hcsv with h | h
  · subst h
    simp [selectStarPixel, hcal]
  · subst h
    cases px <;> simp [selectStarPixel, hcal]

/-- Witness for C1 (amended): star `"A"` with no CSV pixel coordinates
takes the override (2064, 894). -/
theorem calibration_preempts_projection_witness :
    selectStarPixel (fun _ => 0) (fun _ => 1) 3 pixelCalibrationInit
      none none none none 100 100 ⟨"A", none, none⟩ =
      some ⟨2064, 894⟩ :=
  calibration_preempts_projection (fun _ => 0) (fun _ => 1) 3
    pixelCalibrationInit none none none none 100 100
    ⟨"A", none, none⟩ ⟨2064, 894⟩ (Or.inl rfl) rfl

/-- C4: for every parallax `p` (mas) with `p > 0`, both the SIMBAD
resolution branch and the catalog parallax branch produce
`distancePc = 1000 / p` and `distanceLy = distancePc * 3.26156`, with
the constant 3.26156 exactly. -/
theorem parallax_distance_formula (p : ℚ) (hp : 0 < p) :
    (∃ r, simbadDistanceOfParallax p = some r ∧
      r.distancePc = 1000 / p ∧
      r.distanceLy = r.distancePc * 3.26156) ∧
    (∀ e : CatalogEntry, e.parallax = some p →
      ∃ r, lookupDistanceCatalog (some e) = some r ∧
        r.distancePc = 1000 / p ∧
        r.distanceLy = r.distancePc * 3.26156) := by
  have hpa : 0 < p / 1000 := by positivity
  have hinv : 1 / (p / 1000) = 1000 / p := by
    rw [one_div, inv_div]
  constructor
  · refine ⟨⟨1 / (p / 1000) * 3.26156, 1 / (p / 1000), p / 1000⟩, ?_, ?_, ?_⟩
    · simp [simbadDistanceOfParallax, hpa]
    · exact hinv
    · rfl
  · intro e he
    refine ⟨⟨1 / (p / 1000) * 3.26156, 1 / (p / 1000), p / 1000⟩, ?_, ?_, ?_⟩
    · simp [lookupDistanceCatalog, he, hp]
    · exact hinv
    · rfl

/-- Witness for C4 at `p = 5` mas (distance 200 pc). -/
theorem parallax_distance_formula_witness :
    (∃ r, simbadDistanceOfParallax 5 = some r ∧
      r.distancePc = 1000 / 5 ∧
      r.distanceLy = r.distancePc * 3.26156) ∧
    (∀ e : CatalogEntry, e.parallax = some 5 →
      ∃ r, lookupDistanceCatalog (some e) = some r ∧
        r.distancePc = 1000 / 5 ∧
        r.distanceLy = r.distancePc * 3.26156) :=
  parallax_distance_formula 5 (by norm_num)

/-- C9: an object with neither a positive parallax nor a supplied
distance fails resolution individually — it is absent from the batch
results while every successfully resolved object is retained — and the
converter treats a batch as fatal exactly when zero objects survive. -/
theorem per_object_failure (lookup : ℕ → Option DistanceRecord)
    (hipNumbers : List ℕ) (hip : ℕ) :
    (lookup hip = none →
      ∀ r, (hip, r) ∉ batchLookupSIMBAD lookup hipNumbers) ∧
    (∀ h2 r, h2 ∈ hipNumbers → lookup h2 = some r →
      (h2, r) ∈ batchLookupSIMBAD lookup hipNumbers) ∧
    (∀ e : CatalogEntry, (∀ p, e.parallax = some p → ¬ 0 < p) →
      (∀ d, e.distancePc = some d → d = 0) →
      lookupDistanceCatalog (some e) = none) ∧
    (∀ ds : List (Option ℚ),
      convertFatal ds = true ↔ convertSurvivors ds = []) := by
  refine ⟨?_, ?_, ?_, ?_⟩
  · intro hnone r hmem
    simp only [batchLookupSIMBAD, List.mem_filterMap] at hmem
    obtain ⟨a, _, hmap⟩ := hmem
    rw [Option.map_eq_some'] at hmap
    obtain ⟨rec, hrec, heq⟩ := hmap
    obtain ⟨h1, _⟩ := Prod.mk.injEq .. ▸ heq
    subst h1
    rw [hnone] at hrec
    exact Option.noConfusion hrec
  · intro h2 r hh hl
    simp only [batchLookupSIMBAD, List.mem_filterMap]
    exact ⟨h2, hh, by rw [hl]; rfl⟩
  · intro e hpar hdist
    have hbranch : catalogDistancePcBranch e = none := by
      unfold catalogDistancePcBranch
      cases hd : e.distancePc with
      | none => rfl
      | some dv =>
        have : dv = 0 := hdist dv hd
        simp [this]
    cases hp : e.parallax with
    | none => simp [lookupDistanceCatalog, hp, hbranch]
    | some pv => simp [lookupDistanceCatalog, hp, hpar pv hp, hbranch]
  · intro ds
    rw [convertFatal, List.isEmpty_iff]

/-- Witness for C9: identifier 2 has no resolvable distance and is
dropped, identifier 1 is resolved and kept, a catalog entry with zero
parallax and zero distance fails, and a batch with zero survivors is
fatal. -/
theorem per_object_failure_witness :
    ((2 : ℕ), (⟨1, 2, 3⟩ : DistanceRecord)) ∉
      batchLookupSIMBAD
        (fun n => if n = 1 then some ⟨1, 2, 3⟩ else none) [1, 2] ∧
    ((1 : ℕ), (⟨1, 2, 3⟩ : DistanceRecord)) ∈
      batchLookupSIMBAD
        (fun n => if n = 1 then some ⟨1, 2, 3⟩ else none) [1, 2] ∧
    lookupDistanceCatalog (some ⟨some 0, some 0⟩) = none ∧
    (convertFatal [none, some 0] = true ↔
      convertSurvivors [none, some 0] = []) := by
  have h := per_object_failure
    (fun n => if n = 1 then some ⟨1, 2, 3⟩ else none) [1, 2] 2
  refine ⟨h.1 rfl ⟨1, 2, 3⟩, h.2.1 1 ⟨1, 2, 3⟩ (by decide) rfl, ?_,
    h.2.2.2 [none, some 0]⟩
  refine h.2.2.1 ⟨some 0, some 0⟩ ?_ ?_
  · intro p hp
    have h0 : (0 : ℚ) = p := by simpa using hp
    rw [← h0]
    norm_num
  · intro dv hd
    simpa using hd.symm

/-- C2 counterexample: the batch consisting of one resolved distance of
10 ly with volume depth 1920 yields `distanceRange = 0` (not positive)
and `frontOffset = 10`; the claimed substitution
(`distanceRange = volumeDepth`, `frontOffset = 0`) does not occur. -/
theorem degenerate_range_counterexample :
    (calculateDistanceScaling [some 10] 1920).distanceRange = some 0 ∧
    (calculateDistanceScaling [some 10] 1920).frontOffset = 10 ∧
    ¬ ((calculateDistanceScaling [some 10] 1920).distanceRange =
        some 1920 ∧
       (calculateDistanceScaling [some 10] 1920).frontOffset = 0) := by
  have hres : resolvedDistances [some 10] = [10] := by
    norm_num [resolvedDistances, List.filterMap_cons, List.filter_cons]
  have h : calculateDistanceScaling [some 10] 1920 =
      ⟨10, 10, .pinf, some 0⟩ := by
    rw [calculateDistanceScaling, hres]
    norm_num [listMin, listMax, frontOffsetOf, Rat.floor_def', jsDiv]
  rw [h]
  norm_num

/-- C2 (amended): for every batch with at least one resolved distance,
the scaler computes `frontOffset = floor(minDistance/10)*10` and
`distanceRange = maxDistance - frontOffset`; no substitution is made
when that range is ≤ 0, so the normalization divisor is positive only
when `maxDistance` exceeds `frontOffset` (it is 0 when every resolved
distance equals the same multiple of 10). -/
theorem scaling_parameters_formula (starDistances : List (Option ℚ))
    (volumeDepth : ℚ) (hne : resolvedDistances starDistances ≠ []) :
    calculateDistanceScaling starDistances volumeDepth =
      ⟨frontOffsetOf (listMin (resolvedDistances starDistances)),
       listMax (resolvedDistances starDistances),
       jsDiv volumeDepth
         (listMax (resolvedDistances starDistances) -
          frontOffsetOf (listMin (resolvedDistances starDistances))),
       some (listMax (resolvedDistances starDistances) -
          frontOffsetOf (listMin (resolvedDistances starDistances)))⟩ := by
  cases h : resolvedDistances starDistances with
  | nil => exact absurd h hne
  | cons x xs =>
    simp only [calculateDistanceScaling, h]

/-- Witness for C2 (amended) on the batch {10 ly, 25 ly} with volume
depth 1920. -/
theorem scaling_parameters_formula_witness :
    calculateDistanceScaling [some 10, some 25] 1920 =
      ⟨frontOffsetOf (listMin (resolvedDistances [some 10, some 25])),
       listMax (resolvedDistances [some 10, some 25]),
       jsDiv 1920
         (listMax (resolvedDistances [some 10, some 25]) -
          frontOffsetOf (listMin (resolvedDistances [some 10, some 25]))),
       some (listMax (resolvedDistances [some 10, some 25]) -
          frontOffsetOf
            (listMin (resolvedDistances [some 10, some 25])))⟩ :=
  scaling_parameters_formula [some 10, some 25] 1920
    (by norm_num [resolvedDistances, List.filterMap_cons, List.filter_cons,
      List.cons_ne_nil])

/-- C3 counterexample: a single-object batch at exactly 10 ly produces a
scaled distance of `NaN` (`0/0`, which the clamp propagates), not a
value in `[0,1]`. -/
theorem scaled_distance_nan_counterexample :
    scaledDistances [10] = [JSNum.nan] ∧ ¬ JSNum.inUnit JSNum.nan := by
  constructor
  · norm_num [scaledDistances, scaledDistanceOf, listMin, listMax,
      frontOffsetOf, Rat.floor_def', jsDiv, jsClamp01]
  · simp [JSNum.inUnit]

/-- C3 (amended): for every batch whose distance range
`maxDistance - frontOffset` is positive — which holds unless every
distance in the batch equals the same multiple of 10 — every assigned
`scaledDistance` is a finite value in `[0,1]`; in the excluded
degenerate case the division `0/0` yields `NaN`. -/
theorem scaled_distance_in_unit (batch : List ℚ)
    (hrange : frontOffsetOf (listMin batch) < listMax batch) :
    ∀ x ∈ scaledDistances batch, x.inUnit := by
  intro x hx
  rw [scaledDistances, List.mem_map] at hx
  obtain ⟨d, _, rfl⟩ := hx
  have hne : listMax batch - frontOffsetOf (listMin batch) ≠ 0 :=
    ne_of_gt (by linarith)
  simp only [scaledDistanceOf, jsDiv, hne, if_true, ne_eq,
    not_false_eq_true, if_pos, jsClamp01, JSNum.inUnit]
  exact ⟨le_max_left 0 _, max_le (by norm_num) (min_le_left 1 _)⟩

/-- Witness for C3 (amended): in the batch {10 ly, 25 ly} the star at
25 ly gets a scaled distance inside `[0,1]`. -/
theorem scaled_distance_in_unit_witness :
    JSNum.inUnit (scaledDistanceOf [10, 25] 25) :=
  scaled_distance_in_unit [10, 25]
    (by norm_num [frontOffsetOf, listMin, listMax, Rat.floor_def'])
    (scaledDistanceOf [10, 25] 25)
    (List.mem_map_of_mem _ (by norm_num))

/-- C8: depth normalization is monotone — within any batch, the object
at the smallest resolved distance receives a scaled distance at most
that of every object at a strictly greater distance. -/
theorem depth_ordering_monotone (batch : List ℚ) (d : ℚ)
    (hd : d ∈ batch) (hlt : listMin batch < d) :
    ∃ q1 q2 : ℚ,
      scaledDistanceOf batch (listMin batch) = .fin q1 ∧
      scaledDistanceOf batch d = .fin q2 ∧ q1 ≤ q2 := by
  have hfm : frontOffsetOf (listMin batch) ≤ listMin batch :=
    frontOffsetOf_le _
  have hdM : d ≤ listMax batch := le_listMax hd
  have hr : 0 < listMax batch - frontOffsetOf (listMin batch) := by
    linarith
  have hne : listMax batch - frontOffsetOf (listMin batch) ≠ 0 :=
    ne_of_gt hr
  refine ⟨max 0 (min 1 ((listMin batch - frontOffsetOf (listMin batch)) /
      (listMax batch - frontOffsetOf (listMin batch)))),
    max 0 (min 1 ((d - frontOffsetOf (listMin batch)) /
      (listMax batch - frontOffsetOf (listMin batch)))),
    ?_, ?_, ?_⟩
  · simp [scaledDistanceOf, jsDiv, hne, jsClamp01]
  · simp [scaledDistanceOf, jsDiv, hne, jsClamp01]
  · have hdiv : (listMin batch - frontOffsetOf (listMin batch)) /
        (listMax batch - frontOffsetOf (listMin batch)) ≤
        (d - frontOffsetOf (listMin batch)) /
        (listMax batch - frontOffsetOf (listMin batch)) := by
      apply div_le_div_of_nonneg_right ?_ hr.le
      linarith
    exact max_le_max le_rfl (min_le_min le_rfl hdiv)

/-- Witness for C8 on the batch {10 ly, 25 ly} with the farther object
at 25 ly. -/
theorem depth_ordering_monotone_witness :
    ∃ q1 q2 : ℚ,
      scaledDistanceOf [10, 25] (listMin [10, 25]) = .fin q1 ∧
      scaledDistanceOf [10, 25] 25 = .fin q2 ∧ q1 ≤ q2 :=
  depth_ordering_monotone [10, 25] 25 (by norm_num)
    (by norm_num [listMin])

/-- C5: for every input and frame (non-negative dimensions, positive
scale), the projector either rejects — and then the tangent-plane
denominator is below `1e-10` in absolute value, or the raw pixel lies
outside `[-margin, dimension+margin]` on some axis with
`margin = max(width,height) * 0.2` — or returns a coordinate clamped
into `[0, width] × [0, height]`. -/
theorem projector_rejects_or_clamps (S C : ℚ → ℚ)
    (pi ra dec centerRA centerDec imageWidth imageHeight scale : ℚ)
    (hw : 0 ≤ imageWidth) (hh : 0 ≤ imageHeight) (hscale : 0 < scale) :
    (raDecToPixel S C pi ra dec centerRA centerDec imageWidth
        imageHeight scale = none →
      |projDenominator S C pi ra dec centerRA centerDec| <
          1 / 10000000000 ∨
      (rawPixel S C pi ra dec centerRA centerDec imageWidth imageHeight
          scale).1 < -(max imageWidth imageHeight * (2 / 10)) ∨
      imageWidth + max imageWidth imageHeight * (2 / 10) <
        (rawPixel S C pi ra dec centerRA centerDec imageWidth
          imageHeight scale).1 ∨
      (rawPixel S C pi ra dec centerRA centerDec imageWidth imageHeight
          scale).2 < -(max imageWidth imageHeight * (2 / 10)) ∨
      imageHeight + max imageWidth imageHeight * (2 / 10) <
        (rawPixel S C pi ra dec centerRA centerDec imageWidth
          imageHeight scale).2) ∧
    (∀ p, raDecToPixel S C pi ra dec centerRA centerDec imageWidth
        imageHeight scale = some p →
      0 ≤ p.1 ∧ p.1 ≤ imageWidth ∧ 0 ≤ p.2 ∧ p.2 ≤ imageHeight) := by
  constructor
  · intro hnone
    simp only [raDecToPixel] at hnone
    split_ifs at hnone with h1 h2
    · exact Or.inl h1
    · exact Or.inr h2
  · intro p hp
    simp only [raDecToPixel] at hp
    split_ifs at hp with h1 h2
    obtain rfl : (max 0 (min imageWidth
        (rawPixel S C pi ra dec centerRA centerDec imageWidth imageHeight
          scale).1),
      max 0 (min imageHeight
        (rawPixel S C pi ra dec centerRA centerDec imageWidth imageHeight
          scale).2)) = p := Option.some.inj hp
    refine ⟨le_max_left 0 _, max_le hw (min_le_left _ _),
      le_max_left 0 _, max_le hh (min_le_left _ _)⟩

/-- Witness for C5 on a concrete frame (100×50, scale 2) with the
trivial trigonometric instantiation. -/
theorem projector_rejects_or_clamps_witness :
    (raDecToPixel (fun _ => 0) (fun _ => 1) 3 10 20 30 40 100 50 2 =
        none →
      |projDenominator (fun _ => 0) (fun _ => 1) 3 10 20 30 40| <
          1 / 10000000000 ∨
      (rawPixel (fun _ => 0) (fun _ => 1) 3 10 20 30 40 100 50 2).1 <
          -(max (100 : ℚ) 50 * (2 / 10)) ∨
      100 + max (100 : ℚ) 50 * (2 / 10) <
        (rawPixel (fun _ => 0) (fun _ => 1) 3 10 20 30 40 100 50 2).1 ∨
      (rawPixel (fun _ => 0) (fun _ => 1) 3 10 20 30 40 100 50 2).2 <
          -(max (100 : ℚ) 50 * (2 / 10)) ∨
      50 + max (100 : ℚ) 50 * (2 / 10) <
        (rawPixel (fun _ => 0) (fun _ => 1) 3 10 20 30 40 100 50 2).2) ∧
    (∀ p, raDecToPixel (fun _ => 0) (fun _ => 1) 3 10 20 30 40 100 50 2 =
        some p →
      0 ≤ p.1 ∧ p.1 ≤ 100 ∧ 0 ≤ p.2 ∧ p.2 ≤ 50) :=
  projector_rejects_or_clamps (fun _ => 0) (fun _ => 1) 3 10 20 30 40
    100 50 2 (by norm_num) (by norm_num) (by norm_num)

/-- C6: projecting an object at exactly the frame center yields the
pixel `(width/2, height/2)`, for every frame with non-degenerate scale
(the trigonometric parameters satisfy `sin 0 = 0`, `cos 0 = 1` and the
Pythagorean identity at the center declination). -/
theorem projector_center_maps_to_image_center (S C : ℚ → ℚ)
    (pi centerRA centerDec imageWidth imageHeight scale : ℚ)
    (hS0 : S 0 = 0) (hC0 : C 0 = 1)
    (hpyth : S (centerDec * pi / 180) * S (centerDec * pi / 180) +
      C (centerDec * pi / 180) * C (centerDec * pi / 180) = 1)
    (hw : 0 ≤ imageWidth) (hh : 0 ≤ imageHeight) (hscale : scale ≠ 0) :
    raDecToPixel S C pi centerRA centerDec centerRA centerDec imageWidth
      imageHeight scale = some (imageWidth / 2, imageHeight / 2) := by
  have hnorm : normRaDiff centerRA centerRA = 0 := by
    norm_num [normRaDiff]
  have hden : projDenominator S C pi centerRA centerDec centerRA
      centerDec = 1 := by
    simp only [projDenominator, hnorm, zero_mul, zero_div, hC0, mul_one]
    exact hpyth
  have hraw : rawPixel S C pi centerRA centerDec centerRA centerDec
      imageWidth imageHeight scale = (imageWidth / 2, imageHeight / 2) := by
    simp only [rawPixel, hnorm, zero_mul, zero_div, hS0, hC0, mul_one,
      mul_zero, neg_zero, sub_self, add_zero, sub_zero,
      mul_comm (C (centerDec * pi / 180)) (S (centerDec * pi / 180))]
  have hm : 0 ≤ max imageWidth imageHeight * (2 / 10) :=
    mul_nonneg (le_trans hw (le_max_left _ _)) (by norm_num)
  simp only [raDecToPixel, hden, hraw]
  rw [if_neg (by norm_num), if_neg ?hrej]
  case hrej =>
    push_neg
    exact ⟨by linarith, by linarith, by linarith, by linarith⟩
  rw [min_eq_right (by linarith), max_eq_right (by linarith),
    min_eq_right (by linarith), max_eq_right (by linarith)]

/-- Witness for C6 on a concrete frame (center (10°, 20°), 100×50,
scale 2) with the trivial trigonometric instantiation. -/
theorem projector_center_maps_to_image_center_witness :
    raDecToPixel (fun _ => 0) (fun _ => 1) 3 10 20 10 20 100 50 2 =
      some (100 / 2, 50 / 2) :=
  projector_center_maps_to_image_center (fun _ => 0) (fun _ => 1) 3 10
    20 100 50 2 rfl rfl (by norm_num) (by norm_num) (by norm_num)
    (by norm_num)

/-- C7: with `centerRA = 1°`, objects at `RA = 359°` and `RA = 3°` at
the same declination are either both rejected or both placed, and when
placed their X-axis pixel offsets from `width/2` have equal magnitude
and opposite sign (and equal Y), for any odd `sin` and even `cos`
parameters. -/
theorem ra_wraparound_symmetry (S C : ℚ → ℚ)
    (pi dec centerDec imageWidth imageHeight scale : ℚ)
    (hodd : ∀ x, S (-x) = -S x) (heven : ∀ x, C (-x) = C x)
    (hw : 0 ≤ imageWidth) (hscale : scale ≠ 0) :
    (raDecToPixel S C pi 359 dec 1 centerDec imageWidth imageHeight
        scale = none ∧
     raDecToPixel S C pi 3 dec 1 centerDec imageWidth imageHeight
        scale = none) ∨
    (∃ p q : ℚ × ℚ,
      raDecToPixel S C pi 359 dec 1 centerDec imageWidth imageHeight
        scale = some p ∧
      raDecToPixel S C pi 3 dec 1 centerDec imageWidth imageHeight
        scale = some q ∧
      p.1 - imageWidth / 2 = -(q.1 - imageWidth / 2) ∧ p.2 = q.2) := by
  have hn1 : normRaDiff 359 1 = -2 := by norm_num [normRaDiff]
  have hn2 : normRaDiff 3 1 = 2 := by norm_num [normRaDiff]
  have hrneg : (-2 : ℚ) * pi / 180 = -(2 * pi / 180) := by ring
  have hden : projDenominator S C pi 359 dec 1 centerDec =
      projDenominator S C pi 3 dec 1 centerDec := by
    simp only [projDenominator, hn1, hn2, hrneg, heven]
  have hx : (rawPixel S C pi 359 dec 1 centerDec imageWidth imageHeight
      scale).1 = imageWidth -
      (rawPixel S C pi 3 dec 1 centerDec imageWidth imageHeight
        scale).1 := by
    simp only [rawPixel, hn1, hn2, hrneg, hodd, heven]
    ring
  have hy : (rawPixel S C pi 359 dec 1 centerDec imageWidth imageHeight
      scale).2 =
      (rawPixel S C pi 3 dec 1 centerDec imageWidth imageHeight
        scale).2 := by
    simp only [rawPixel, hn1, hn2, hrneg, hodd, heven]
  simp only [raDecToPixel, hden, hx, hy]
  split_ifs with hdn hr1 hr2 hr2
  · exact Or.inl ⟨rfl, rfl⟩
  · exact Or.inl ⟨rfl, rfl⟩
  · push_neg at hr2
    obtain ⟨c1, c2, c3, c4⟩ := hr2
    rcases hr1 with h | h | h | h <;> [linarith; linarith; linarith;
      linarith]
  · push_neg at hr1
    obtain ⟨c1, c2, c3, c4⟩ := hr1
    rcases hr2 with h | h | h | h <;> [linarith; linarith; linarith;
      linarith]
  · refine Or.inr ⟨_, _, rfl, rfl, ?_, rfl⟩
    have hc := clamp_reflect imageWidth
      (rawPixel S C pi 3 dec 1 centerDec imageWidth imageHeight
        scale).1 hw
    simp only [hc]
    ring

/-- Witness for C7 with the trivial odd/even trigonometric
instantiation on a 100×50 frame (both objects placed at the center
column, offsets 0 and −0). -/
theorem ra_wraparound_symmetry_witness :
    (raDecToPixel (fun _ => 0) (fun _ => 1) 3 359 0 1 0 100 50 1 =
        none ∧
     raDecToPixel (fun _ => 0) (fun _ => 1) 3 3 0 1 0 100 50 1 =
        none) ∨
    (∃ p q : ℚ × ℚ,
      raDecToPixel (fun _ => 0) (fun _ => 1) 3 359 0 1 0 100 50 1 =
        some p ∧
      raDecToPixel (fun _ => 0) (fun _ => 1) 3 3 0 1 0 100 50 1 =
        some q ∧
      p.1 - 100 / 2 = -(q.1 - 100 / 2) ∧ p.2 = q.2) :=
  ra_wraparound_symmetry (fun _ => 0) (fun _ => 1) 3 0 0 100 50 1
    (fun x => by norm_num) (fun x => rfl) (by norm_num) (by norm_num)

end StarField3D
